import Mathlib

/-!
Shallow embedding of `src/uwifi/core.py` (class `uwifi`), a thin wrapper
around a MicroPython Wi-Fi driver.  External collaborators (the platform
network driver, the clock, the socket layer and the byte decoder) are
modelled as explicit parameters: a poll schedule `isconn : Nat → Bool`
gives the value of the k-th `sta_if.isconnected()` poll, time advances by
exactly one second per `time.sleep(1)` (driver calls and prints are
idealized as instantaneous), and a per-attempt outcome `Nat → Bool` gives
whether the i-th probe or connect attempt succeeds (an attempt whose
socket code raises is a `false` outcome: the `except` clause swallows the
exception and the loop continues).  All interface state lives in explicit
records, with an instrumentation counter for underlying disconnect calls.
-/

namespace UWifi

/-- Python value as far as this module inspects one: `None`, a string, or
an integer.  Enough to express Python truthiness as used by
`dns = dns or gateway` in `set_static_ip`. -/
inductive PyVal where
  | vNone : PyVal
  | vStr : String → PyVal
  | vInt : Int → PyVal
deriving DecidableEq, Repr

/-- Python truthiness restricted to `PyVal`: `None` is falsy, a string is
truthy iff nonempty, an integer is truthy iff nonzero. -/
def PyVal.truthy : PyVal → Bool
  | PyVal.vNone => false
  | PyVal.vStr s => !(s == "")
  | PyVal.vInt n => !(n == 0)

/-- Python `a or b`: yields `a` when `a` is truthy, else `b`. -/
def pyOr (a b : PyVal) : PyVal := if a.truthy then a else b

/-- Python `str()` rendering of a `PyVal`, as used by f-string interpolation. -/
def PyVal.toStr : PyVal → String
  | PyVal.vNone => "None"
  | PyVal.vStr s => s
  | PyVal.vInt n => toString n

/-- The station (STA) interface handle `sta_if`.  `connected` is the
platform-reported `isconnected()` flag, `ifcfg` the `ifconfig()` 4-tuple
(IP, subnet, gateway, DNS), `essid` the value `config` reports for the
essid key, and
`disconnectCalls` counts underlying `sta_if.disconnect()` invocations
(instrumentation, so that we can state how many driver calls were issued). -/
structure StaIf where
  active : Bool
  connected : Bool
  ifcfg : PyVal × PyVal × PyVal × PyVal
  essid : String
  disconnectCalls : Nat
deriving DecidableEq, Repr

/-- The access-point (AP) interface handle `ap_if`, with its `active` flag
and the configuration fields set by `ap_if.config(...)`. -/
structure ApIf where
  active : Bool
  essid : String
  password : Option String
  authmode : Nat
  channel : Nat
  max_clients : Nat
deriving DecidableEq, Repr

/-- The `uwifi` manager object: it owns the two interface handles. -/
structure Uwifi where
  sta_if : StaIf
  ap_if : ApIf
deriving DecidableEq, Repr

/-- `uwifi.__init__`: acquire both handles, activate the station interface
and deactivate the access-point interface (`sta_if.active(True)`,
`ap_if.active(False)`).  `sta0`, `ap0` are the handles as handed over by
the platform. -/
def init (sta0 : StaIf) (ap0 : ApIf) : Uwifi :=
  { sta_if := { sta0 with active := true }, ap_if := { ap0 with active := false } }

/-- The polling loop of `uwifi.connect`: at iteration `k` (after `k` calls
to `time.sleep(1)`, so wall-clock `time.time() - start_time = k` seconds),
first test `sta_if.isconnected()` (poll schedule `isconn`); on success
return `True`, else if `time.time() - start_time > timeout` return `False`,
else sleep one second and loop.  The second component is `k` at return:
the elapsed whole seconds when the function returns. -/
def connectLoop (isconn : Nat → Bool) (timeout : Int) (k : Nat) : Bool × Nat :=
  if isconn k then (true, k)
  else if h : (k : Int) > timeout then (false, k)
  else connectLoop isconn timeout (k + 1)
termination_by (timeout + 1 - (k : Int)).toNat
decreasing_by omega

/-- `uwifi.connect(ssid, password, timeout)`: issue
`sta_if.connect(ssid, password)` (its effect on the platform is reflected
in the poll schedule `isconn`), record `start_time = time.time()`, then run
the polling loop.  Returns the boolean result and the elapsed seconds. -/
def connect (isconn : Nat → Bool) (ssid password : String) (timeout : Int) : Bool × Nat :=
  connectLoop isconn timeout 0

/-- `uwifi.is_connected()`: direct passthrough of `sta_if.isconnected()`. -/
def is_connected (m : Uwifi) : Bool := m.sta_if.connected

/-- Effect of the underlying driver call `sta_if.disconnect()`: the station
drops its association, so `isconnected()` reports `False` afterwards
(platform contract); the instrumentation counter records the call. -/
def StaIf.driverDisconnect (s : StaIf) : StaIf :=
  { s with connected := false, disconnectCalls := s.disconnectCalls + 1 }

/-- `uwifi.disconnect()`: if `sta_if.isconnected()` then issue
`sta_if.disconnect()` (and print); otherwise do nothing. -/
def disconnect (m : Uwifi) : Uwifi :=
  if m.sta_if.connected then { m with sta_if := m.sta_if.driverDisconnect } else m

/-- `uwifi.set_static_ip(ip, subnet, gateway, dns=None)`: compute
`dns = dns or gateway` (Python truthiness), then
`sta_if.ifconfig((ip, subnet, gateway, dns))`.  A call with `dns` omitted
is a call with `dns = PyVal.vNone`, the Python default. -/
def set_static_ip (m : Uwifi) (ip subnet gateway dns : PyVal) : Uwifi :=
  { m with sta_if := { m.sta_if with ifcfg := (ip, subnet, gateway, pyOr dns gateway) } }

/-- `uwifi.get_ip_config()`: direct passthrough of `sta_if.ifconfig()`. -/
def get_ip_config (m : Uwifi) : PyVal × PyVal × PyVal × PyVal := m.sta_if.ifcfg

/-- The `for _ in range(count)` loop of `uwifi.ping`, with `n` iterations
remaining and `i` attempts already performed.  `attemptOk i` tells whether
the i-th attempt reaches a successful `s.connect(addr)`: when it does, the
function returns `True` at once; otherwise some socket call raised, the
bare `except` swallows the exception and the loop continues.  After the
loop, return `False`.  The second component counts attempts performed. -/
def pingLoop (attemptOk : Nat → Bool) : Nat → Nat → Bool × Nat
  | 0, i => (false, i)
  | n + 1, i => if attemptOk i then (true, i + 1) else pingLoop attemptOk n (i + 1)

/-- `uwifi.ping(host, count)`: run the probe loop `count` times
(`range(count)` is empty when `count ≤ 0`).  The host string does not
influence control flow beyond the per-attempt outcome `attemptOk`. -/
def ping (attemptOk : Nat → Bool) (count : Int) : Bool × Nat :=
  pingLoop attemptOk count.toNat 0

/-- The `while attempt < retry_count` loop of `uwifi.reconnect`.
`connectResult i` is the boolean returned by the i-th underlying call
`self.connect(ssid, password, timeout)`.  On `True` return `True` at once;
otherwise increment `attempt` and loop; after the loop return `False`.
The second component counts underlying connect invocations. -/
def reconnectLoop (connectResult : Nat → Bool) (retry_count : Nat) (attempt : Nat) : Bool × Nat :=
  if h : attempt < retry_count then
    if connectResult attempt then (true, attempt + 1)
    else reconnectLoop connectResult retry_count (attempt + 1)
  else (false, attempt)
termination_by retry_count - attempt
decreasing_by omega

/-- `uwifi.reconnect(ssid, password, timeout, retry_count)`: run the retry
loop starting from `attempt = 0`. -/
def reconnect (connectResult : Nat → Bool) (retry_count : Nat) : Bool × Nat :=
  reconnectLoop connectResult retry_count 0

/-- One entry of the raw `sta_if.scan()` result: a tuple whose first field
is the SSID as raw bytes; the remaining fields (bssid, channel, RSSI,
security, hidden) are carried opaquely. -/
structure ScanEntry where
  ssid : List Nat
  rest : List Int
deriving DecidableEq, Repr

/-- `uwifi.list_available_networks()`: trigger `sta_if.scan()` (raw result
`networks`) and return `[network[0].decode(utf8) for network in networks]`.
The platform byte decoder is the explicit parameter `decode`. -/
def list_available_networks (decode : List Nat → String) (networks : List ScanEntry) :
    List String :=
  networks.map (fun nw => decode nw.ssid)

/-- `uwifi.create_access_point(ssid, password=None, authmode=4, channel=1,
max_clients=4)`: `ap_if.active(True)` then `ap_if.config(...)` with the
given fields. -/
def create_access_point (m : Uwifi) (ssid : String) (password : Option String)
    (authmode : Nat) (channel : Nat) (max_clients : Nat) : Uwifi :=
  { m with ap_if := { active := true, essid := ssid, password := password,
                      authmode := authmode, channel := channel,
                      max_clients := max_clients } }

/-- `uwifi.disable_access_point()`: `ap_if.active(False)`. -/
def disable_access_point (m : Uwifi) : Uwifi :=
  { m with ap_if := { m.ap_if with active := false } }

/-- `uwifi.check_wifi_status()`: if `self.is_connected()` return the
formatted connected message built from `sta_if.config(essid)` and
`sta_if.ifconfig()[0]`, else the fixed not-connected message.  The method
only reads the interfaces; the returned second component is the (unchanged)
manager state after the call. -/
def check_wifi_status (m : Uwifi) : String × Uwifi :=
  if is_connected m then
    ("Connected to " ++ m.sta_if.essid ++ " with IP " ++ m.sta_if.ifcfg.1.toStr, m)
  else
    ("Not connected to any network.", m)

/-- Concrete manager state used by closed witness instances: station
inactive and not connected, empty configuration, access point down. -/
def demoManager : Uwifi :=
  { sta_if := { active := false, connected := false,
                ifcfg := (PyVal.vNone, PyVal.vNone, PyVal.vNone, PyVal.vNone),
                essid := "", disconnectCalls := 0 },
    ap_if := { active := false, essid := "", password := none,
               authmode := 0, channel := 0, max_clients := 0 } }

/-- Concrete manager state reporting a live connection, for witnesses. -/
def demoConnected : Uwifi :=
  { sta_if := { active := true, connected := true,
                ifcfg := (PyVal.vStr "192.168.1.7", PyVal.vStr "255.255.255.0",
                          PyVal.vStr "192.168.1.1", PyVal.vStr "192.168.1.1"),
                essid := "HomeNet", disconnectCalls := 0 },
    ap_if := { active := false, essid := "", password := none,
               authmode := 0, channel := 0, max_clients := 0 } }

/-- On a schedule that never reports connected, the polling loop starting
at iteration `k ≤ timeout + 1` exits with `False` exactly when the elapsed
time first exceeds `timeout`, i.e. at `timeout + 1` seconds. -/
theorem connectLoop_never (timeout : Int) :
    ∀ k : Nat, (k : Int) ≤ timeout + 1 →
      connectLoop (fun _ => false) timeout k = (false, (timeout + 1).toNat) := by
  have main : ∀ n : Nat, ∀ k : Nat, (timeout - (k : Int)).toNat = n →
      (k : Int) ≤ timeout + 1 →
      connectLoop (fun _ => false) timeout k = (false, (timeout + 1).toNat) := by
    intro n
    induction n with
    | zero =>
      intro k hk hle
      rw [connectLoop]
      simp only [Bool.false_eq_true, if_false]
      by_cases h : (k : Int) > timeout
      · rw [dif_pos h]
        simp only [Prod.mk.injEq, true_and]
        omega
      · rw [dif_neg h, connectLoop]
        have h1 : ((k + 1 : Nat) : Int) > timeout := by push_cast; omega
        simp only [Bool.false_eq_true, if_false]
        rw [dif_pos h1]
        simp only [Prod.mk.injEq, true_and]
        omega
    | succ m ih =>
      intro k hk hle
      rw [connectLoop]
      simp only [Bool.false_eq_true, if_false]
      by_cases h : (k : Int) > timeout
      · rw [dif_pos h]
        simp only [Prod.mk.injEq, true_and]
        omega
      · rw [dif_neg h]
        exact ih (k + 1) (by push_cast; omega) (by push_cast; omega)
  intro k hle
  exact main ((timeout - (k : Int)).toNat) k rfl hle

/-- C1: for every timeout ≥ 0, if `isconnected()` never becomes true,
`connect` returns `False` (it is a total function: no exception), and the
elapsed wall-clock time at return is within one 1-second polling interval
of `timeout` (it is exactly `timeout + 1` seconds). -/
theorem connect_timeout_spec (ssid password : String) (timeout : Int) (h : 0 ≤ timeout) :
    (connect (fun _ => false) ssid password timeout).1 = false
    ∧ ((connect (fun _ => false) ssid password timeout).2 : Int) ≤ timeout + 1
    ∧ timeout ≤ ((connect (fun _ => false) ssid password timeout).2 : Int) := by
  have he : connect (fun _ => false) ssid password timeout = (false, (timeout + 1).toNat) := by
    unfold connect
    exact connectLoop_never timeout 0 (by omega)
  rw [he]
  refine ⟨rfl, ?_, ?_⟩ <;> simp <;> omega

/-- Witness for C1 at `timeout = 10`: `connect` returns `False` and the
elapsed time is exactly 11 seconds, which is within one polling interval. -/
theorem connect_timeout_spec_witness :
    (connect (fun _ => false) "MyWifi" "pw" 10).1 = false
    ∧ ((connect (fun _ => false) "MyWifi" "pw" 10).2 : Int) ≤ 10 + 1
    ∧ (10 : Int) ≤ ((connect (fun _ => false) "MyWifi" "pw" 10).2 : Int) :=
  connect_timeout_spec "MyWifi" "pw" 10 (by decide)

/-- On any schedule that never reports connected, `connect` returns
`False` for every timeout, including negative ones. -/
theorem connect_never_false (ssid password : String) (timeout : Int) :
    (connect (fun _ => false) ssid password timeout).1 = false := by
  by_cases h : (0 : Int) ≤ timeout + 1
  · unfold connect
    rw [connectLoop_never timeout 0 (by push_cast; omega)]
  · unfold connect
    rw [connectLoop]
    simp only [Bool.false_eq_true, if_false]
    rw [dif_pos (show ((0 : Nat) : Int) > timeout by push_cast; omega)]

/-- If every one of the `n` remaining probe attempts fails, the ping loop
performs all of them and returns `False`. -/
theorem pingLoop_allFail (attemptOk : Nat → Bool) :
    ∀ n i, (∀ j, j < n → attemptOk (i + j) = false) →
      pingLoop attemptOk n i = (false, i + n) := by
  intro n
  induction n with
  | zero => intro i _; rfl
  | succ m ih =>
    intro i hall
    have h0 : attemptOk i = false := by simpa using hall 0 (Nat.succ_pos m)
    simp only [pingLoop, h0, Bool.false_eq_true, if_false]
    have hrec := ih (i + 1) (fun j hj => by
      have := hall (j + 1) (by omega)
      rwa [show i + (j + 1) = (i + 1) + j from by omega] at this)
    rw [hrec]
    simp only [Prod.mk.injEq, true_and]
    omega

/-- If the ping loop returns `False`, every attempt it performed failed. -/
theorem pingLoop_false_of (attemptOk : Nat → Bool) :
    ∀ n i, (pingLoop attemptOk n i).1 = false → ∀ j, j < n → attemptOk (i + j) = false := by
  intro n
  induction n with
  | zero => intro i _ j hj; exact absurd hj (Nat.not_lt_zero j)
  | succ m ih =>
    intro i hres j hj
    have h0 : attemptOk i = false := by
      by_cases h : attemptOk i = true
      · exfalso
        simp [pingLoop, h] at hres
      · simpa using h
    rcases Nat.eq_zero_or_pos j with hj0 | hjpos
    · subst hj0
      simpa using h0
    · obtain ⟨e, rfl⟩ : ∃ e, j = e + 1 := ⟨j - 1, by omega⟩
      have hres' : (pingLoop attemptOk m (i + 1)).1 = false := by
        simpa [pingLoop, h0] using hres
      have := ih (i + 1) hres' e (by omega)
      rwa [show (i + 1) + e = i + (e + 1) from by omega] at this

/-- If the attempt at offset `d` succeeds and all earlier ones fail, the
ping loop returns `True` having performed exactly `d + 1` attempts. -/
theorem pingLoop_firstSuccess (attemptOk : Nat → Bool) :
    ∀ d n i, d < n → attemptOk (i + d) = true → (∀ j, j < d → attemptOk (i + j) = false) →
      pingLoop attemptOk n i = (true, i + d + 1) := by
  intro d
  induction d with
  | zero =>
    intro n i hn hs _
    obtain ⟨m, rfl⟩ : ∃ m, n = m + 1 := ⟨n - 1, by omega⟩
    have hs' : attemptOk i = true := by simpa using hs
    simp only [pingLoop, hs', if_true]
  | succ e ih =>
    intro n i hn hs hprev
    obtain ⟨m, rfl⟩ : ∃ m, n = m + 1 := ⟨n - 1, by omega⟩
    have h0 : attemptOk i = false := by simpa using hprev 0 (by omega)
    simp only [pingLoop, h0, Bool.false_eq_true, if_false]
    have hrec := ih m (i + 1) (by omega)
      (by rw [show (i + 1) + e = i + (e + 1) from by omega]; exact hs)
      (fun j hj => by
        rw [show (i + 1) + j = i + (j + 1) from by omega]
        exact hprev (j + 1) (by omega))
    rw [hrec]
    simp only [Prod.mk.injEq, true_and]
    omega

/-- C3: for every count ≥ 1, `ping` is total (a failing attempt is a
swallowed exception and the loop continues): it returns `False` exactly
when all `count` attempts fail, in that case having performed exactly
`count` attempts, and it returns `True` on the first attempt whose socket
connect succeeds, having performed exactly that many attempts. -/
theorem ping_spec (attemptOk : Nat → Bool) (count : Int) (h : 1 ≤ count) :
    ((ping attemptOk count).1 = false ↔ ∀ i, i < count.toNat → attemptOk i = false)
    ∧ ((∀ i, i < count.toNat → attemptOk i = false) →
        ping attemptOk count = (false, count.toNat))
    ∧ (∀ i, i < count.toNat → attemptOk i = true → (∀ j, j < i → attemptOk j = false) →
        ping attemptOk count = (true, i + 1)) := by
  refine ⟨⟨?_, ?_⟩, ?_, ?_⟩
  · intro hres i hi
    have := pingLoop_false_of attemptOk count.toNat 0 hres i hi
    simpa using this
  · intro hall
    have := pingLoop_allFail attemptOk count.toNat 0 (fun j hj => by simpa using hall j hj)
    simp only [Nat.zero_add] at this
    rw [ping, this]
  · intro hall
    have := pingLoop_allFail attemptOk count.toNat 0 (fun j hj => by simpa using hall j hj)
    simp only [Nat.zero_add] at this
    rw [ping, this]
  · intro i hi hs hprev
    have := pingLoop_firstSuccess attemptOk i count.toNat 0 hi (by simpa using hs)
      (fun j hj => by simpa using hprev j hj)
    simpa [ping] using this

/-- Witness for C3: a probe succeeding on the 2nd attempt gives `True`
after exactly 2 attempts; a probe that always fails gives `False` after
exactly 4 attempts. -/
theorem ping_spec_witness :
    ping (fun j => j == 1) 2 = (true, 1 + 1)
    ∧ ping (fun _ => false) 4 = (false, (4 : Int).toNat) := by
  constructor
  · refine (ping_spec (fun j => j == 1) 2 (by decide)).2.2 1 (by decide) (by decide) ?_
    intro j hj
    interval_cases j
    rfl
  · exact (ping_spec (fun _ => false) 4 (by decide)).2.1 (fun i _ => rfl)

/-- C9: for count ≤ 0, `range(count)` is empty, so `ping` returns `False`
having performed zero probe attempts (no DNS resolution, no socket
connect); `ping` takes no interface handle at all, matching the source,
so neither interface can be mutated. -/
theorem ping_nonpositive_spec (attemptOk : Nat → Bool) (count : Int) (h : count ≤ 0) :
    ping attemptOk count = (false, 0) := by
  unfold ping
  rw [show count.toNat = 0 from by omega]
  rfl

/-- Witness for C9: even with every attempt able to succeed, a count of
-3 yields `False` with zero attempts performed. -/
theorem ping_nonpositive_spec_witness :
    ping (fun _ => true) (-3) = (false, 0) :=
  ping_nonpositive_spec (fun _ => true) (-3) (by decide)

/-- If every underlying connect attempt fails, the retry loop starting at
`attempt ≤ retry_count` exhausts all attempts and returns `False` with
`retry_count` total invocations. -/
theorem reconnectLoop_allFail (connectResult : Nat → Bool) (retry_count : Nat)
    (hall : ∀ i, connectResult i = false) :
    ∀ n attempt, retry_count - attempt = n → attempt ≤ retry_count →
      reconnectLoop connectResult retry_count attempt = (false, retry_count) := by
  intro n
  induction n with
  | zero =>
    intro attempt hn hle
    rw [reconnectLoop, dif_neg (by omega)]
    simp only [Prod.mk.injEq, true_and]
    omega
  | succ m ih =>
    intro attempt hn hle
    rw [reconnectLoop, dif_pos (by omega)]
    simp only [hall attempt, Bool.false_eq_true, if_false]
    exact ih (attempt + 1) (by omega) (by omega)

/-- If the i-th underlying connect attempt is the first to succeed and
`i < retry_count`, the retry loop returns `True` after `i + 1` invocations. -/
theorem reconnectLoop_firstSuccess (connectResult : Nat → Bool) (retry_count i : Nat)
    (hi : i < retry_count) (hs : connectResult i = true)
    (hprev : ∀ j, j < i → connectResult j = false) :
    ∀ n attempt, i - attempt = n → attempt ≤ i →
      reconnectLoop connectResult retry_count attempt = (true, i + 1) := by
  intro n
  induction n with
  | zero =>
    intro attempt hn hle
    have : attempt = i := by omega
    subst this
    rw [reconnectLoop, dif_pos (by omega)]
    simp only [hs, if_true]
  | succ m ih =>
    intro attempt hn hle
    rw [reconnectLoop, dif_pos (by omega)]
    simp only [hprev attempt (by omega), Bool.false_eq_true, if_false]
    exact ih (attempt + 1) (by omega) (by omega)

/-- C2: for every retryCount ≥ 1, `reconnect` against a station that never
connects (each underlying `connect` returns `False` by
`connect_never_false`) returns `False` after exactly `retryCount`
underlying connect invocations; and for any underlying outcomes,
`reconnect` returns `True` as soon as one connect attempt succeeds, after
exactly that many invocations. -/
theorem reconnect_spec (ssid password : String) (timeout : Int) (retry_count : Nat)
    (h : 1 ≤ retry_count) :
    reconnect (fun _ => (connect (fun _ => false) ssid password timeout).1) retry_count
      = (false, retry_count)
    ∧ (∀ connectResult : Nat → Bool, ∀ i, i < retry_count → connectResult i = true →
        (∀ j, j < i → connectResult j = false) →
        reconnect connectResult retry_count = (true, i + 1)) := by
  constructor
  · exact reconnectLoop_allFail _ retry_count
      (fun _ => connect_never_false ssid password timeout) retry_count 0 (by omega) (by omega)
  · intro connectResult i hi hs hprev
    exact reconnectLoop_firstSuccess connectResult retry_count i hi hs hprev i 0
      (by omega) (by omega)

/-- Witness for C2 at retryCount = 3: a never-connecting station gives
`False` after exactly 3 connect invocations; outcomes succeeding on the
2nd invocation give `True` after exactly 2 invocations. -/
theorem reconnect_spec_witness :
    reconnect (fun _ => (connect (fun _ => false) "Net" "pw" 1).1) 3 = (false, 3)
    ∧ reconnect (fun j => j == 1) 3 = (true, 1 + 1) := by
  constructor
  · exact (reconnect_spec "Net" "pw" 1 3 (by decide)).1
  · refine (reconnect_spec "Net" "pw" 1 3 (by decide)).2 (fun j => j == 1) 1
      (by decide) (by decide) ?_
    intro j hj
    interval_cases j
    rfl

/-- C4: calling `set_static_ip` with the dns argument omitted (Python
default `None`) sets the station IP configuration to the 4-tuple
`(ip, subnet, gateway, gateway)`: the DNS field defaults to the gateway. -/
theorem set_static_ip_default_dns (m : Uwifi) (ip subnet gateway : PyVal) :
    (set_static_ip m ip subnet gateway PyVal.vNone).sta_if.ifcfg
      = (ip, subnet, gateway, gateway) := rfl

/-- C10: `dns = dns or gateway` keys on Python truthiness, so any falsy
dns value explicitly provided (empty string, 0, None) is replaced by the
gateway, and the provided dns is used exactly when it is truthy. -/
theorem set_static_ip_falsy_dns (m : Uwifi) (ip subnet gateway dns : PyVal) :
    (dns.truthy = false →
      (set_static_ip m ip subnet gateway dns).sta_if.ifcfg = (ip, subnet, gateway, gateway))
    ∧ (dns.truthy = true →
      (set_static_ip m ip subnet gateway dns).sta_if.ifcfg = (ip, subnet, gateway, dns)) := by
  constructor
  · intro h
    simp [set_static_ip, pyOr, h]
  · intro h
    simp [set_static_ip, pyOr, h]

/-- Witness for C10: each falsy dns (empty string, 0, None) yields the
gateway as DNS field, and a truthy dns is used as given. -/
theorem set_static_ip_falsy_dns_witness :
    (set_static_ip demoManager (PyVal.vStr "10.0.0.2") (PyVal.vStr "255.255.255.0")
        (PyVal.vStr "10.0.0.1") (PyVal.vStr "")).sta_if.ifcfg
      = (PyVal.vStr "10.0.0.2", PyVal.vStr "255.255.255.0", PyVal.vStr "10.0.0.1",
         PyVal.vStr "10.0.0.1")
    ∧ (set_static_ip demoManager (PyVal.vStr "10.0.0.2") (PyVal.vStr "255.255.255.0")
        (PyVal.vStr "10.0.0.1") (PyVal.vInt 0)).sta_if.ifcfg
      = (PyVal.vStr "10.0.0.2", PyVal.vStr "255.255.255.0", PyVal.vStr "10.0.0.1",
         PyVal.vStr "10.0.0.1")
    ∧ (set_static_ip demoManager (PyVal.vStr "10.0.0.2") (PyVal.vStr "255.255.255.0")
        (PyVal.vStr "10.0.0.1") PyVal.vNone).sta_if.ifcfg
      = (PyVal.vStr "10.0.0.2", PyVal.vStr "255.255.255.0", PyVal.vStr "10.0.0.1",
         PyVal.vStr "10.0.0.1")
    ∧ (set_static_ip demoManager (PyVal.vStr "10.0.0.2") (PyVal.vStr "255.255.255.0")
        (PyVal.vStr "10.0.0.1") (PyVal.vStr "1.1.1.1")).sta_if.ifcfg
      = (PyVal.vStr "10.0.0.2", PyVal.vStr "255.255.255.0", PyVal.vStr "10.0.0.1",
         PyVal.vStr "1.1.1.1") :=
  ⟨(set_static_ip_falsy_dns demoManager _ _ _ _).1 (by decide),
   (set_static_ip_falsy_dns demoManager _ _ _ _).1 (by decide),
   (set_static_ip_falsy_dns demoManager _ _ _ _).1 (by decide),
   (set_static_ip_falsy_dns demoManager _ _ _ _).2 (by decide)⟩

/-- C5: when the station reports not connected, `disconnect` leaves the
whole manager state unchanged (no driver call, no state change, total
hence no exception); when connected, it issues exactly one underlying
disconnect (counter increments by one, access point untouched); and
calling it twice equals calling it once. -/
theorem disconnect_spec (m : Uwifi) :
    (m.sta_if.connected = false → disconnect m = m)
    ∧ (m.sta_if.connected = true →
        (disconnect m).sta_if.disconnectCalls = m.sta_if.disconnectCalls + 1
        ∧ (disconnect m).sta_if.connected = false
        ∧ (disconnect m).sta_if.active = m.sta_if.active
        ∧ (disconnect m).sta_if.ifcfg = m.sta_if.ifcfg
        ∧ (disconnect m).sta_if.essid = m.sta_if.essid
        ∧ (disconnect m).ap_if = m.ap_if)
    ∧ disconnect (disconnect m) = disconnect m := by
  refine ⟨?_, ?_, ?_⟩
  · intro h
    simp [disconnect, h]
  · intro h
    simp [disconnect, h, StaIf.driverDisconnect]
  · by_cases h : m.sta_if.connected
    · simp [disconnect, h, StaIf.driverDisconnect]
    · simp [disconnect, h]

/-- Witness for C5: a disconnected manager is left untouched; a connected
one gets exactly one driver disconnect; the second call is a no-op. -/
theorem disconnect_spec_witness :
    disconnect demoManager = demoManager
    ∧ (disconnect demoConnected).sta_if.disconnectCalls
      = demoConnected.sta_if.disconnectCalls + 1
    ∧ (disconnect demoConnected).ap_if = demoConnected.ap_if
    ∧ disconnect (disconnect demoConnected) = disconnect demoConnected :=
  ⟨(disconnect_spec demoManager).1 rfl,
   ((disconnect_spec demoConnected).2.1 rfl).1,
   ((disconnect_spec demoConnected).2.1 rfl).2.2.2.2.2,
   (disconnect_spec demoConnected).2.2⟩

/-- C6: `list_available_networks` maps the raw scan result through the
byte decoder: the output has the same length as the scan result and its
i-th element is the decoded SSID of the i-th scan entry, preserving order. -/
theorem list_available_networks_spec (decode : List Nat → String)
    (networks : List ScanEntry) :
    (list_available_networks decode networks).length = networks.length
    ∧ ∀ i : Nat, (list_available_networks decode networks)[i]? =
        (networks[i]?).map (fun nw => decode nw.ssid) := by
  constructor
  · simp [list_available_networks]
  · intro i
    simp [list_available_networks]

/-- C7: constructing the manager activates the station interface and
deactivates the AP interface; `create_access_point` with SSID Test leaves
the AP active with essid Test; a subsequent `disable_access_point` leaves
the AP inactive. -/
theorem access_point_scenario (sta0 : StaIf) (ap0 : ApIf) :
    (init sta0 ap0).sta_if.active = true
    ∧ (init sta0 ap0).ap_if.active = false
    ∧ (create_access_point (init sta0 ap0) "Test" (some "pass1234") 4 1 4).ap_if.active = true
    ∧ (create_access_point (init sta0 ap0) "Test" (some "pass1234") 4 1 4).ap_if.essid = "Test"
    ∧ (disable_access_point
        (create_access_point (init sta0 ap0) "Test" (some "pass1234") 4 1 4)).ap_if.active
      = false :=
  ⟨rfl, rfl, rfl, rfl, rfl⟩

/-- C8: `check_wifi_status` returns the formatted connected message (with
the station essid and current IP) when the station reports connected, the
fixed not-connected message otherwise, and never mutates either interface
(the state after the call equals the state before). -/
theorem check_wifi_status_spec (m : Uwifi) :
    (check_wifi_status m).2 = m
    ∧ (m.sta_if.connected = true → (check_wifi_status m).1
        = "Connected to " ++ m.sta_if.essid ++ " with IP " ++ m.sta_if.ifcfg.1.toStr)
    ∧ (m.sta_if.connected = false → (check_wifi_status m).1
        = "Not connected to any network.") := by
  refine ⟨?_, ?_, ?_⟩
  · by_cases h : m.sta_if.connected <;> simp [check_wifi_status, is_connected, h]
  · intro h
    simp [check_wifi_status, is_connected, h]
  · intro h
    simp [check_wifi_status, is_connected, h]

/-- Witness for C8: a connected manager yields the fully formatted
message, a disconnected one the fixed message, and the state is unchanged. -/
theorem check_wifi_status_spec_witness :
    (check_wifi_status demoConnected).1 = "Connected to HomeNet with IP 192.168.1.7"
    ∧ (check_wifi_status demoManager).1 = "Not connected to any network."
    ∧ (check_wifi_status demoManager).2 = demoManager :=
  ⟨((check_wifi_status_spec demoConnected).2.1 rfl).trans (by decide),
   (check_wifi_status_spec demoManager).2.2 rfl,
   (check_wifi_status_spec demoManager).1⟩

end UWifi
